import Mathlib

/-!
Shallow embedding of the training and evaluation pipeline of the
QML-for-btag repository, covering `my_model_mps.py` and the training loop of
`test.py`.

Modelling conventions:
* numeric arrays are lists of rationals (`List ℚ`); a 2-D array is a list of
  rows;
* the external primitives — the PennyLane/JAX circuit, the reverse-mode
  gradient produced by `jax.value_and_grad`, the numeric square root inside
  the Adam update, and the in-place `np.random.shuffle` — are parameters of
  the definitions; theorems that depend on `np.random.shuffle` being a
  permutation take that as a hypothesis;
* fallible Python code returns `Except PyError`; Python's scoping rule that
  an assignment anywhere in a function body makes the name local to the whole
  body is modelled by giving `Train_Model`'s local `opt_state` slot the type
  `Option OptState`, starting at `none` (unbound).
-/

set_option maxRecDepth 100000

namespace QML

/-- Python exceptions raised by the modelled code paths. -/
inductive PyError where
  | zeroDivisionError
  | valueError
  | unboundLocalError
  | nameError
  | indexError
  deriving DecidableEq

/-! Constants from `my_model_mps.py`, lines 17-24. -/

def SEED : Nat := 0

def TRAIN_SIZE : Nat := 10000

def TEST_SIZE : Nat := 5000

def N_QUBITS : Nat := 16

def N_PARAMS_B : Nat := 3

def LR : ℚ := 1 / 100

def N_EPOCHS : Nat := 3000

def BATCH_SIZE : Nat := 200

/-- Split a list into `n` consecutive chunks of `k` elements each (the shape
`np.split` produces when it succeeds: `n` sections of `len / n` elements). -/
def chunkExact (k : Nat) : Nat → List α → List (List α)
  | 0, _ => []
  | n + 1, l => l.take k :: chunkExact k n (l.drop k)

/-- `np.split(ary, sections)` with an integer `sections`: numpy first computes
`N % sections` (raising `ZeroDivisionError` when `sections = 0`), raises
`ValueError` ("array split does not result in an equal division") when the
remainder is nonzero, and otherwise returns `sections` arrays of
`N / sections` rows each. -/
def np_split (l : List α) (sections : Nat) : Except PyError (List (List α)) :=
  if sections = 0 then .error .zeroDivisionError
  else if l.length % sections ≠ 0 then .error .valueError
  else .ok (chunkExact (l.length / sections) sections l)

/-- The rows of `np.column_stack([x, y])`: each feature row with its label
appended. -/
def stacked (x : List (List ℚ)) (y : List ℚ) : List (List ℚ) :=
  List.zipWith (fun f l => f ++ [l]) x y

/-- `np.column_stack([x, y])` requires `x` and `y` to have the same number of
rows; otherwise it raises `ValueError`. -/
def column_stack (x : List (List ℚ)) (y : List ℚ) : Except PyError (List (List ℚ)) :=
  if x.length = y.length then .ok (stacked x y) else .error .valueError

/-- `Batch_and_Shuffle` (`my_model_mps.py` lines 88-92):
`z = int(len(x) / BATCH_SIZE)`; the rows of `np.column_stack([x, y])` are
shuffled in place by `np.random.shuffle` (modelled by the function `σ`), and
the feature columns `[:, 0:N_QUBITS]` and the last column `[:, -1]` are each
passed to `np.split(·, z)`. -/
def Batch_and_Shuffle (σ : List (List ℚ) → List (List ℚ))
    (x : List (List ℚ)) (y : List ℚ) :
    Except PyError (List (List (List ℚ)) × List (List ℚ) × Nat) :=
  let z := x.length / BATCH_SIZE
  match column_stack x y with
  | .error e => .error e
  | .ok d0 =>
    let data := σ d0
    match np_split (data.map (fun r => r.take N_QUBITS)) z with
    | .error e => .error e
    | .ok fb =>
      match np_split (data.map (fun r => r.getLastD 0)) z with
      | .error e => .error e
      | .ok lb => .ok (fb, lb, z)

/-- A dataset of `n` feature rows, each of the `N_QUBITS` feature columns. -/
def ex_x (n : Nat) : List (List ℚ) := List.replicate n (List.replicate N_QUBITS 0)

/-- `n` aligned labels, all `+1`. -/
def ex_y (n : Nat) : List ℚ := List.replicate n 1

/-- A predictor that outputs `+1` on every row, for any parameter values. -/
def constOne : List ℚ → List ℚ → ℚ := fun _ _ => 1

/-- `np.mean` over a 1-D array: sum divided by length. (For an empty array
numpy returns NaN; the theorems below only apply it to nonempty lists, where
the rational division is exact.) -/
def pyMean (l : List ℚ) : ℚ := l.sum / (l.length : ℚ)

/-- `jax.numpy.sign`: `1` on positives, `-1` on negatives, `0` at `0`. -/
def sign (q : ℚ) : ℚ := if 0 < q then 1 else if q < 0 then -1 else 0

/-- `Loss` (`my_model_mps.py` lines 56-58): mean squared error between the
vectorized circuit output `Circuit(x, w)` and the labels `y`. The circuit is
an external differentiable primitive, passed as the row-wise function `C`. -/
def Loss (C : List ℚ → List ℚ → ℚ) (w : List ℚ) (x : List (List ℚ)) (y : List ℚ) : ℚ :=
  pyMean (List.zipWith (fun xi yi => (C xi w - yi) ^ 2) x y)

/-- `Accuracy` (`my_model_mps.py` lines 61-63): mean of the boolean array
`sign(Circuit(x, w)) == y`. -/
def Accuracy (C : List ℚ → List ℚ → ℚ) (w : List ℚ) (x : List (List ℚ)) (y : List ℚ) : ℚ :=
  pyMean (List.zipWith (fun xi yi => if sign (C xi w) = yi then (1 : ℚ) else 0) x y)

/-- State of `jax.example_libraries.optimizers.adam`: the parameter vector and
the first and second moment estimates (the parameter tensor is modelled
flattened to a list; Adam acts elementwise). -/
structure OptState where
  x : List ℚ
  m : List ℚ
  v : List ℚ
  deriving DecidableEq

/-- Adam's `b1` default, `0.9`. -/
def adam_b1 : ℚ := 9 / 10

/-- Adam's `b2` default, `0.999`. -/
def adam_b2 : ℚ := 999 / 1000

/-- Adam's `eps` default, `1e-8`. -/
def adam_eps : ℚ := 1 / 100000000

/-- `init` of `adam`: zero moment estimates alongside the initial point. -/
def opt_init (x0 : List ℚ) : OptState :=
  ⟨x0, x0.map (fun _ => 0), x0.map (fun _ => 0)⟩

/-- `update(i, g, state)` of `jax.example_libraries.optimizers.adam` with a
constant step size `lr`:
`m = (1-b1)*g + b1*m`; `v = (1-b2)*g² + b2*v`; `mhat = m / (1 - b1^(i+1))`;
`vhat = v / (1 - b2^(i+1))`; `x = x - lr * mhat / (sqrt(vhat) + eps)`.
The numeric square root is an external primitive, passed as `sq`. -/
def opt_update (sq : ℚ → ℚ) (lr : ℚ) (i : Nat) (g : List ℚ) (s : OptState) : OptState :=
  let m := List.zipWith (fun gj mj => (1 - adam_b1) * gj + adam_b1 * mj) g s.m
  let v := List.zipWith (fun gj vj => (1 - adam_b2) * gj ^ 2 + adam_b2 * vj) g s.v
  let mhat := m.map (fun mj => mj / (1 - adam_b1 ^ (i + 1)))
  let vhat := v.map (fun vj => vj / (1 - adam_b2 ^ (i + 1)))
  ⟨List.zipWith (fun xj u => xj - lr * u) s.x
     (List.zipWith (fun mh vh => mh / (sq vh + adam_eps)) mhat vhat), m, v⟩

/-- `get_params` of `adam`: pure extraction of the parameter vector. -/
def get_params (s : OptState) : List ℚ := s.x

/-- `Train_Step` (`my_model_mps.py` lines 74-80):
`current_w = get_params(opt_state)`;
`jax.value_and_grad(Loss)(current_w, f, t)` returns the loss value together
with the gradient of `Loss` with respect to `w`, both evaluated at
`current_w` (the gradient is the external autodiff primitive `gradLoss`,
applied at that same snapshot); `acc_value = Accuracy(current_w, f, t)`;
finally `opt_state = opt_update(stepid, grads, opt_state)`.
Returns `(loss_value, acc_value, opt_state)`. -/
def Train_Step (C : List ℚ → List ℚ → ℚ)
    (gradLoss : List ℚ → List (List ℚ) → List ℚ → List ℚ)
    (sq : ℚ → ℚ)
    (stepid : Nat) (opt_state : OptState)
    (train_f : List (List ℚ)) (train_t : List ℚ) : ℚ × ℚ × OptState :=
  let current_w := get_params opt_state
  let loss_value := Loss C current_w train_f train_t
  let grads := gradLoss current_w train_f train_t
  let acc_value := Accuracy C current_w train_f train_t
  (loss_value, acc_value, opt_update sq LR stepid grads opt_state)

/-- `Test_Step` (`my_model_mps.py` lines 82-86): loss and accuracy at frozen
parameters, no optimizer update. -/
def Test_Step (C : List ℚ → List ℚ → ℚ) (current_w : List ℚ)
    (test_f : List (List ℚ)) (test_t : List ℚ) : ℚ × ℚ :=
  (Loss C current_w test_f test_t, Accuracy C current_w test_f test_t)

/-- A run of `n` consecutive training steps: starting from `opt_init w0`,
fold `Train_Step` over the given batch sequence, passing step ids
`0, 1, 2, …` (the `step` counter of `Train_Model`, incremented once per
completed step). -/
def trainRun (C : List ℚ → List ℚ → ℚ)
    (gradLoss : List ℚ → List (List ℚ) → List ℚ → List ℚ)
    (sq : ℚ → ℚ) (w0 : List ℚ)
    (batches : List (List (List ℚ) × List ℚ)) : OptState :=
  (batches.foldl
    (fun (acc : Nat × OptState) b =>
      (acc.1 + 1, (Train_Step C gradLoss sq acc.1 acc.2 b.1 b.2).2.2))
    (0, opt_init w0)).2

/-- Observable effects of a `Train_Model` run: the `(step, loss, accuracy)`
triples written into `loss_data` and `acc_data` by completed `Train_Step`
calls, the periodic progress lines printed (epoch, loss, accuracy), and the
parameter snapshots saved with `np.save` (tagged by epoch). -/
structure TrainTrace where
  records : List (Nat × ℚ × ℚ)
  reports : List (Nat × ℚ × ℚ)
  checkpoints : List (Nat × List ℚ)
  deriving DecidableEq

/-- The local variables of `Train_Model` threaded through its loops. Because
`opt_state` is assigned inside the body (line 106), Python treats it as a
local name for the whole body; the slot starts unbound (`none`), and reading
it while `none` raises `UnboundLocalError`. -/
structure LoopSt where
  opt : Option OptState
  step : Nat
  loss_data : List ℚ
  acc_data : List ℚ
  trace : TrainTrace

/-- The inner batch loop of `Train_Model` (lines 105-107): for each batch,
evaluate the right-hand side `Train_Step(step, opt_state, train_f[j],
train_t[j])` — which first reads the local `opt_state` — then store the loss
and accuracy at index `step`, rebind `opt_state`, and increment `step`. -/
def train_inner (C : List ℚ → List ℚ → ℚ)
    (gradLoss : List ℚ → List (List ℚ) → List ℚ → List ℚ) (sq : ℚ → ℚ) :
    List (List (List ℚ) × List ℚ) → LoopSt → LoopSt × Option PyError
  | [], st => (st, none)
  | (f, t) :: rest, st =>
    match st.opt with
    | none => (st, some .unboundLocalError)
    | some s =>
      let r := Train_Step C gradLoss sq st.step s f t
      train_inner C gradLoss sq rest
        ⟨some r.2.2, st.step + 1,
         st.loss_data.set st.step r.1, st.acc_data.set st.step r.2.1,
         ⟨st.trace.records ++ [(st.step, r.1, r.2.1)],
          st.trace.reports, st.trace.checkpoints⟩⟩

/-- The epoch loop of `Train_Model` (lines 101-111): per epoch, call
`Batch_and_Shuffle` (with that epoch's shuffle `σ i`), run the inner batch
loop, and every 100 epochs evaluate the progress print of line 110 — whose
f-string reads `loss_data[sgtep-1]`: the name `sgtep` is bound nowhere, so
the statement raises `NameError` before printing anything or reaching the
`np.save` on line 111. -/
def train_epochs (C : List ℚ → List ℚ → ℚ)
    (gradLoss : List ℚ → List (List ℚ) → List ℚ → List ℚ) (sq : ℚ → ℚ)
    (σ : Nat → List (List ℚ) → List (List ℚ))
    (x : List (List ℚ)) (y : List ℚ) :
    List Nat → LoopSt → LoopSt × Option PyError
  | [], st => (st, none)
  | i :: rest, st =>
    match Batch_and_Shuffle (σ i) x y with
    | .error e => (st, some e)
    | .ok (train_f, train_t, _z) =>
      match train_inner C gradLoss sq (train_f.zip train_t) st with
      | (st1, some e) => (st1, some e)
      | (st1, none) =>
        if (i + 1) % 100 = 0 then (st1, some .nameError)
        else train_epochs C gradLoss sq σ x y rest st1

/-- `Train_Model` (`my_model_mps.py` lines 94-116): allocate
`loss_data`/`acc_data` of length `N_EPOCHS * z`, run the epoch loop with the
local `opt_state` slot unbound, and on normal loop exit save the final
parameters `get_params(opt_state)` (line 114) — another read of the local
slot. The result pairs the observable trace with either the returned
`(opt_state, loss_data, acc_data)` or the exception raised. -/
def Train_Model (C : List ℚ → List ℚ → ℚ)
    (gradLoss : List ℚ → List (List ℚ) → List ℚ → List ℚ) (sq : ℚ → ℚ)
    (σ : Nat → List (List ℚ) → List (List ℚ))
    (x : List (List ℚ)) (y : List ℚ) :
    TrainTrace × Except PyError (OptState × List ℚ × List ℚ) :=
  let z := x.length / BATCH_SIZE
  let st0 : LoopSt :=
    ⟨none, 0, List.replicate (N_EPOCHS * z) 0, List.replicate (N_EPOCHS * z) 0,
     ⟨[], [], []⟩⟩
  match train_epochs C gradLoss sq σ x y (List.range N_EPOCHS) st0 with
  | (st, some e) => (st.trace, .error e)
  | (st, none) =>
    match st.opt with
    | none => (st.trace, .error .unboundLocalError)
    | some s =>
      (⟨st.trace.records, st.trace.reports,
        st.trace.checkpoints ++ [(N_EPOCHS, get_params s)]⟩,
       .ok (s, st.loss_data, st.acc_data))

/-- The names assigned somewhere in the body of `Train_Model`
(`my_model_mps.py` lines 94-116) — Python's local names for that body. -/
def train_model_local_names : List String :=
  ["x", "y", "z", "loss_data", "acc_data", "step", "i",
   "train_f", "train_t", "chunks", "j", "file_weights", "opt_state"]

/-- The module-level names of `my_model_mps.py` (imports, constants, and
top-level definitions). -/
def module_level_names : List String :=
  ["np", "pd", "os", "qml", "plt", "ld_full", "ld_muon", "partial", "jax",
   "adam", "sklearn", "roc_curve", "roc_auc_score",
   "SEED", "TRAIN_SIZE", "TEST_SIZE", "N_QUBITS", "N_PARAMS_B", "LR",
   "N_EPOCHS", "BATCH_SIZE", "device", "Block", "Circuit", "Loss",
   "Accuracy", "weights", "opt_init", "opt_update", "get_params",
   "opt_state", "Train_Step", "Test_Step", "Batch_and_Shuffle",
   "Train_Model", "Test_Model", "Plot_ROC", "Plot_Loss_and_Acc", "Run_Model"]

/-- The Python builtins the module touches. -/
def py_builtin_names : List String :=
  ["print", "range", "len", "int", "str", "input", "open"]

/-- Name resolution inside `Train_Model`: a name is found if it is local to
the body, module-level, or a builtin; otherwise evaluating it raises
`NameError`. -/
def train_model_name_lookup (n : String) : Except PyError Unit :=
  if n ∈ train_model_local_names ∨ n ∈ module_level_names ∨ n ∈ py_builtin_names
  then .ok () else .error .nameError

namespace TestPy

/-- `train_step` (`test.py` lines 36-42): same body as
`my_model_mps.Train_Step` — loss, gradient and accuracy at
`get_params(opt_state)`, then `opt_update(stepid, grads, opt_state)` — for
`test.py`'s circuit `C` and learning rate `lr`. -/
def train_step (C : List ℚ → List ℚ → ℚ)
    (gradLoss : List ℚ → List (List ℚ) → List ℚ → List ℚ)
    (sq : ℚ → ℚ) (lr : ℚ)
    (stepid : Nat) (opt_state : OptState)
    (x : List (List ℚ)) (y : List ℚ) : ℚ × ℚ × OptState :=
  let current_w := get_params opt_state
  let loss_value := Loss C current_w x y
  let grads := gradLoss current_w x y
  let acc_value := Accuracy C current_w x y
  (loss_value, acc_value, opt_update sq lr stepid grads opt_state)

/-- One epoch of the `QuantumModel` training loop (`test.py` lines 78-83):
`for j in range(chunks): loss_value, acc_value, opt_state = train_step(i,
opt_state, train_dataframe[j], train_target_dataframe[j])`, filling
`loss_temp`/`acc_temp`. The value passed as `stepid` is the epoch index `i`
for every chunk. Returns the state after the epoch, the list of `stepid`
values passed to `opt_update`, and the two metric arrays. -/
def train_epoch (C : List ℚ → List ℚ → ℚ)
    (gradLoss : List ℚ → List (List ℚ) → List ℚ → List ℚ)
    (sq : ℚ → ℚ) (lr : ℚ) (i : Nat) :
    List (List (List ℚ) × List ℚ) → OptState →
      OptState × List Nat × List ℚ × List ℚ
  | [], s => (s, [], [], [])
  | (f, t) :: rest, s =>
    let r := train_step C gradLoss sq lr i s f t
    let res := train_epoch C gradLoss sq lr i rest r.2.2
    (res.1, i :: res.2.1, r.1 :: res.2.2.1, r.2.1 :: res.2.2.2)

/-- The epoch loop of `QuantumModel` (`test.py` lines 77-87): per epoch `i`,
run the chunk loop and record `(jnp.average(loss_temp),
jnp.average(acc_temp))` into `train_loss_data[i]`/`train_acc_data[i]`.
Returns the final state, the concatenated list of `stepid` values passed to
`opt_update`, and the per-epoch metric records. -/
def train_loop (C : List ℚ → List ℚ → ℚ)
    (gradLoss : List ℚ → List (List ℚ) → List ℚ → List ℚ)
    (sq : ℚ → ℚ) (lr : ℚ)
    (batches : List (List (List ℚ) × List ℚ)) :
    List Nat → OptState → OptState × List Nat × List (ℚ × ℚ)
  | [], s => (s, [], [])
  | i :: rest, s =>
    let e := train_epoch C gradLoss sq lr i batches s
    let r := train_loop C gradLoss sq lr batches rest e.1
    (r.1, e.2.1 ++ r.2.1, (pyMean e.2.2.1, pyMean e.2.2.2) :: r.2.2)

/-- The training phase of `QuantumModel` (`test.py` lines 64-88): initialize
the Adam state from `w0` and run the epoch loop over `range(N_EPOCHS)`. -/
def QuantumModel_training (C : List ℚ → List ℚ → ℚ)
    (gradLoss : List ℚ → List (List ℚ) → List ℚ → List ℚ)
    (sq : ℚ → ℚ) (lr : ℚ)
    (batches : List (List (List ℚ) × List ℚ))
    (nEpochs : Nat) (w0 : List ℚ) : OptState × List Nat × List (ℚ × ℚ) :=
  train_loop C gradLoss sq lr batches (List.range nEpochs) (opt_init w0)

end TestPy

/-- A numpy array of unknown rank: `np.array(TEST_SIZE)` builds a
0-dimensional (scalar) array, while a loaded batch of predictions would be a
vector. -/
inductive NpArray where
  | scalar : ℚ → NpArray
  | vector : List ℚ → NpArray
  deriving DecidableEq

/-- Item assignment `a[i] = batch` where `batch` is an array of predictions:
on a 0-dimensional array, indexing raises `IndexError` ("too many indices");
on a 1-dimensional array, assigning a sequence into one cell raises
`ValueError`. -/
def np_setitem (a : NpArray) (_i : Nat) (_batch : List ℚ) : Except PyError NpArray :=
  match a with
  | .scalar _ => .error .indexError
  | .vector _ => .error .valueError

/-- `np.reshape(ps, (ps.shape[0]*ps.shape[1], ps.shape[2]))` from line 142:
a 0-dimensional array has an empty `shape` tuple and a 1-dimensional array a
length-1 `shape` tuple, so `ps.shape[0]` resp. `ps.shape[2]` raises
`IndexError` in both cases. -/
def np_reshape_line142 (a : NpArray) : Except PyError (List ℚ) :=
  match a with
  | .scalar _ => .error .indexError
  | .vector _ => .error .indexError

/-- `Plot_ROC` (`my_model_mps.py` lines 136-146), modelled up to the ROC
computation: `depth = int(len(x)/BATCH_SIZE)`; `new_x = np.split(x, depth)`;
`ps = np.array(TEST_SIZE)` — a 0-dimensional scalar array holding `5000` —
then `for i in range(depth): ps[i] = Circuit(new_x[i], w)`, the reshape of
line 142, and finally `roc_curve`/`roc_auc_score` (external primitives
`rocCurve`/`aucScore`) on the per-sample scores. -/
def Plot_ROC (C : List ℚ → List ℚ → ℚ)
    (rocCurve : List ℚ → List ℚ → List ℚ × List ℚ × List ℚ)
    (aucScore : List ℚ → List ℚ → ℚ)
    (w : List ℚ) (x : List (List ℚ)) (y : List ℚ) :
    Except PyError (List ℚ × List ℚ × List ℚ × ℚ) :=
  let depth := x.length / BATCH_SIZE
  match np_split x depth with
  | .error e => .error e
  | .ok new_x =>
    let ps0 : NpArray := .scalar (TEST_SIZE : ℚ)
    match (List.range depth).foldlM
        (fun a i => np_setitem a i ((new_x.getD i []).map (fun r => C r w))) ps0 with
    | .error e => .error e
    | .ok ps =>
      match np_reshape_line142 ps with
      | .error e => .error e
      | .ok predictions =>
        let fpr_tpr_thr := rocCurve y predictions
        .ok (fpr_tpr_thr.1, fpr_tpr_thr.2.1, fpr_tpr_thr.2.2, aucScore y predictions)

/-! Helper lemmas about the embedded operations. -/

theorem chunkExact_cons (k n : Nat) (l : List α) :
    chunkExact k (n + 1) l = l.take k :: chunkExact k n (l.drop k) := rfl

theorem chunkExact_length (k : Nat) : ∀ (n : Nat) (l : List α), (chunkExact k n l).length = n
  | 0, _ => rfl
  | n + 1, l => by simp [chunkExact, chunkExact_length k n]

theorem chunkExact_flatten (k : Nat) : ∀ (n : Nat) (l : List α), l.length = k * n →
    (chunkExact k n l).flatten = l
  | 0, l, h => by
    have hl : l = [] := List.eq_nil_of_length_eq_zero (by simpa using h)
    simp [hl, chunkExact]
  | n + 1, l, h => by
    have hdrop : (l.drop k).length = k * n := by
      rw [List.length_drop, h, Nat.mul_succ, Nat.add_sub_cancel]
    simp only [chunkExact, List.flatten_cons, chunkExact_flatten k n (l.drop k) hdrop]
    exact List.take_append_drop k l

theorem length_of_mem_chunkExact (k : Nat) : ∀ (n : Nat) (l : List α), l.length = k * n →
    ∀ b ∈ chunkExact k n l, b.length = k
  | 0, _, _, b, hb => absurd hb (by simp [chunkExact])
  | n + 1, l, h, b, hb => by
    rcases List.mem_cons.mp hb with hb1 | hb2
    · subst hb1
      rw [List.length_take, h, Nat.mul_succ]
      exact Nat.min_eq_left (Nat.le_add_left k (k * n))
    · exact length_of_mem_chunkExact k n (l.drop k)
        (by rw [List.length_drop, h, Nat.mul_succ, Nat.add_sub_cancel]) b hb2

theorem stacked_length (x : List (List ℚ)) (y : List ℚ) (hlen : x.length = y.length) :
    (stacked x y).length = x.length := by
  simp [stacked, List.length_zipWith, hlen]

theorem stacked_recover : ∀ (x : List (List ℚ)) (y : List ℚ), x.length = y.length →
    (∀ r ∈ x, r.length = N_QUBITS) →
    (stacked x y).map (fun r => (r.take N_QUBITS, r.getLastD 0)) = x.zip y
  | [], [], _, _ => rfl
  | [], _ :: _, h, _ => by simp at h
  | _ :: _, [], h, _ => by simp at h
  | xi :: xs, yi :: ys, h, hw => by
    have hxi : xi.length = N_QUBITS := hw xi (List.mem_cons_self xi xs)
    have hrec := stacked_recover xs ys (by simpa using h)
      (fun r hr => hw r (List.mem_cons_of_mem xi hr))
    simp only [stacked, List.zipWith_cons_cons, List.map_cons, List.zip_cons_cons] at hrec ⊢
    refine congrArg₂ _ (congrArg₂ _ ?_ ?_) hrec
    · rw [← hxi]
      exact List.take_left xi [yi]
    · exact List.getLastD_concat 0 yi xi

theorem Batch_and_Shuffle_ok (σ : List (List ℚ) → List (List ℚ))
    (x : List (List ℚ)) (y : List ℚ)
    (hσ : ∀ d, (σ d).Perm d) (hlen : x.length = y.length)
    (hz : x.length / BATCH_SIZE ≠ 0) (hdvd : x.length / BATCH_SIZE ∣ x.length) :
    Batch_and_Shuffle σ x y =
      .ok (chunkExact (x.length / (x.length / BATCH_SIZE)) (x.length / BATCH_SIZE)
             ((σ (stacked x y)).map (fun r => r.take N_QUBITS)),
           chunkExact (x.length / (x.length / BATCH_SIZE)) (x.length / BATCH_SIZE)
             ((σ (stacked x y)).map (fun r => r.getLastD 0)),
           x.length / BATCH_SIZE) := by
  have hdata : (σ (stacked x y)).length = x.length :=
    ((hσ _).length_eq).trans (stacked_length x y hlen)
  have h1 : ((σ (stacked x y)).map (fun r : List ℚ => r.take N_QUBITS)).length = x.length := by
    simp [hdata]
  have h2 : ((σ (stacked x y)).map (fun r : List ℚ => r.getLastD 0)).length = x.length := by
    simp [hdata]
  have hmod : x.length % (x.length / BATCH_SIZE) = 0 := Nat.mod_eq_zero_of_dvd hdvd
  simp only [Batch_and_Shuffle, column_stack, if_pos hlen, np_split, h1, h2, hmod, hz,
    if_neg hz, ne_eq, not_true_eq_false, not_false_eq_true, if_neg, if_pos]

theorem Batch_and_Shuffle_not_dvd (σ : List (List ℚ) → List (List ℚ))
    (x : List (List ℚ)) (y : List ℚ)
    (hσ : ∀ d, (σ d).Perm d) (hlen : x.length = y.length)
    (hz : x.length / BATCH_SIZE ≠ 0) (hndvd : ¬ x.length / BATCH_SIZE ∣ x.length) :
    Batch_and_Shuffle σ x y = .error .valueError := by
  have hdata : (σ (stacked x y)).length = x.length :=
    ((hσ _).length_eq).trans (stacked_length x y hlen)
  have h1 : ((σ (stacked x y)).map (fun r : List ℚ => r.take N_QUBITS)).length = x.length := by
    simp [hdata]
  have hmod : x.length % (x.length / BATCH_SIZE) ≠ 0 :=
    fun h => hndvd (Nat.dvd_iff_mod_eq_zero.mpr h)
  simp only [Batch_and_Shuffle, column_stack, if_pos hlen, np_split, h1]
  simp [hz, hmod]

theorem train_epochs_unbound_head
    {C : List ℚ → List ℚ → ℚ} {gradLoss : List ℚ → List (List ℚ) → List ℚ → List ℚ}
    {sq : ℚ → ℚ} {σ : Nat → List (List ℚ) → List (List ℚ)}
    {x : List (List ℚ)} {y : List ℚ} {i : Nat} {rest : List Nat}
    {step : Nat} {ld ad : List ℚ} {tr : TrainTrace}
    {f0 : List (List ℚ)} {fr : List (List (List ℚ))} {l0 : List ℚ} {lr : List (List ℚ)}
    {z : Nat}
    (hBS : Batch_and_Shuffle (σ i) x y = .ok (f0 :: fr, l0 :: lr, z)) :
    train_epochs C gradLoss sq σ x y (i :: rest) ⟨none, step, ld, ad, tr⟩ =
      (⟨none, step, ld, ad, tr⟩, some .unboundLocalError) := by
  unfold train_epochs
  rw [hBS]
  rfl

theorem TestPy.train_epoch_stepids (C : List ℚ → List ℚ → ℚ)
    (gradLoss : List ℚ → List (List ℚ) → List ℚ → List ℚ) (sq : ℚ → ℚ) (lr : ℚ) (i : Nat) :
    ∀ (bs : List (List (List ℚ) × List ℚ)) (s : OptState),
      (TestPy.train_epoch C gradLoss sq lr i bs s).2.1 = List.replicate bs.length i
  | [], _ => rfl
  | (f, t) :: rest, s => by
    simp [TestPy.train_epoch, List.replicate,
      TestPy.train_epoch_stepids C gradLoss sq lr i rest]

theorem TestPy.train_loop_stepids (C : List ℚ → List ℚ → ℚ)
    (gradLoss : List ℚ → List (List ℚ) → List ℚ → List ℚ) (sq : ℚ → ℚ) (lr : ℚ)
    (batches : List (List (List ℚ) × List ℚ)) :
    ∀ (l : List Nat) (s : OptState),
      (TestPy.train_loop C gradLoss sq lr batches l s).2.1 =
        l.flatMap (fun i => List.replicate batches.length i)
  | [], _ => rfl
  | i :: rest, s => by
    simp [TestPy.train_loop, TestPy.train_epoch_stepids,
      TestPy.train_loop_stepids C gradLoss sq lr batches rest]

theorem TestPy.train_loop_records_length (C : List ℚ → List ℚ → ℚ)
    (gradLoss : List ℚ → List (List ℚ) → List ℚ → List ℚ) (sq : ℚ → ℚ) (lr : ℚ)
    (batches : List (List (List ℚ) × List ℚ)) :
    ∀ (l : List Nat) (s : OptState),
      (TestPy.train_loop C gradLoss sq lr batches l s).2.2.length = l.length
  | [], _ => rfl
  | i :: rest, s => by
    simp [TestPy.train_loop,
      TestPy.train_loop_records_length C gradLoss sq lr batches rest]

theorem zipWith_indicator_sum (P : α → β → Prop) [inst : ∀ a b, Decidable (P a b)] :
    ∀ (x : List α) (y : List β),
      (List.zipWith (fun a b => if P a b then (1 : ℚ) else 0) x y).sum =
        ((x.zip y).countP (fun p => decide (P p.1 p.2)) : ℚ)
  | [], _ => by simp
  | _ :: _, [] => by simp
  | a :: xs, b :: ys => by
    simp only [List.zipWith_cons_cons, List.sum_cons, List.zip_cons_cons, List.countP_cons,
      zipWith_indicator_sum P xs ys]
    by_cases h : P a b
    · simp [h]
      ring
    · simp [h]

theorem zipWith_congr_mem (f g : α → β → γ) :
    ∀ (x : List α) (y : List β), (∀ a ∈ x, ∀ b ∈ y, f a b = g a b) →
      List.zipWith f x y = List.zipWith g x y
  | [], _, _ => by simp
  | _ :: _, [], _ => by simp
  | a :: xs, b :: ys, h => by
    simp only [List.zipWith_cons_cons]
    refine congrArg₂ _ (h a (List.mem_cons_self a xs) b (List.mem_cons_self b ys)) ?_
    exact zipWith_congr_mem f g xs ys
      (fun a ha b hb => h a (List.mem_cons_of_mem _ ha) b (List.mem_cons_of_mem _ hb))

theorem zipWith_const_sum (c : ℚ) : ∀ (x : List α) (y : List β),
    (List.zipWith (fun _ _ => c) x y).sum = ((min x.length y.length : Nat) : ℚ) * c
  | [], _ => by simp
  | _ :: _, [] => by
    rw [List.zipWith_nil_right]
    simp
  | a :: xs, b :: ys => by
    simp only [List.zipWith_cons_cons, List.sum_cons, zipWith_const_sum c xs ys,
      List.length_cons]
    rw [show min (xs.length + 1) (ys.length + 1) = min xs.length ys.length + 1 by omega]
    push_cast
    ring

/-! Claim theorems. -/

/-- C1: `Train_Model` assigns `opt_state` in its body (line 106), so Python
treats the name as local to the whole function; the first `Train_Step` call
of the first epoch reads it before any assignment, raising
`UnboundLocalError`. On any training dataset of aligned rows that yields at
least one batch (`BATCH_SIZE ≤ N`, and `z = N / BATCH_SIZE` divides `N` so
that `np.split` itself succeeds), `Train_Model` raises at the first batch of
the first epoch and never returns: no optimizer step completes, no metric
record is written, no progress line is emitted, and no checkpoint is
saved — the trace is empty and the result is the exception. -/
theorem train_model_raises_unbound_local
    (C : List ℚ → List ℚ → ℚ) (gradLoss : List ℚ → List (List ℚ) → List ℚ → List ℚ)
    (sq : ℚ → ℚ) (σ : Nat → List (List ℚ) → List (List ℚ))
    (x : List (List ℚ)) (y : List ℚ)
    (hσ : ∀ i d, (σ i d).Perm d)
    (hlen : x.length = y.length)
    (hbs : BATCH_SIZE ≤ x.length)
    (hdvd : x.length / BATCH_SIZE ∣ x.length) :
    Train_Model C gradLoss sq σ x y = (⟨[], [], []⟩, .error .unboundLocalError) := by
  have hz : x.length / BATCH_SIZE ≠ 0 :=
    Nat.pos_iff_ne_zero.mp (Nat.div_pos hbs (by norm_num [BATCH_SIZE]))
  have hBS := Batch_and_Shuffle_ok (σ 0) x y (hσ 0) hlen hz hdvd
  obtain ⟨m, hm⟩ := Nat.exists_eq_succ_of_ne_zero hz
  rw [hm, chunkExact_cons, chunkExact_cons] at hBS
  have hrange : List.range N_EPOCHS = 0 :: List.map Nat.succ (List.range 2999) := by
    rw [show N_EPOCHS = 2999 + 1 from rfl]
    exact List.range_succ_eq_map 2999
  simp only [Train_Model]
  rw [hrange, train_epochs_unbound_head hBS]

/-- Witness for C1 at a concrete dataset: 200 aligned rows, one batch per
epoch, identity shuffle. -/
theorem train_model_raises_unbound_local_witness :
    Train_Model (fun _ _ => 1) (fun w _ _ => w) (fun q => q) (fun _ d => d)
        (ex_x 200) (ex_y 200) = (⟨[], [], []⟩, .error .unboundLocalError) :=
  train_model_raises_unbound_local _ _ _ _ _ _
    (fun _ d => List.Perm.refl d) (by decide) (by decide) (by decide)

/-- C2 counterexample: on 300 aligned rows, `z = ⌊300/200⌋ = 1` and
`Batch_and_Shuffle` returns ONE batch of all 300 rows — not a batch of
exactly `BATCH_SIZE = 200` rows with the remaining 100 dropped; and on 401
rows (`z = 2`, `401 % 2 ≠ 0`) the call raises `ValueError` instead of
dropping the remainder, so it can fail when `BATCH_SIZE` does not divide
`N`. -/
theorem batch_and_shuffle_drop_remainder_cex :
    (Batch_and_Shuffle (fun d => d) (ex_x 300) (ex_y 300)).map
        (fun r => (r.2.2, r.1.map List.length)) = .ok (1, [300]) ∧
    (300 : Nat) ≠ BATCH_SIZE ∧
    Batch_and_Shuffle (fun d => d) (ex_x 401) (ex_y 401) = .error .valueError :=
  ⟨rfl, by decide, rfl⟩

/-- C2 amended: one call to `Batch_and_Shuffle` on `N` aligned rows computes
`z = ⌊N / BATCH_SIZE⌋`; when `z` divides `N` it produces exactly `z` batches
of `N / z` rows each — no rows are dropped, and the rows per batch equal
`BATCH_SIZE` exactly when `BATCH_SIZE` divides `N` — and when `z` does not
divide `N` the call raises `np.split`'s equal-division `ValueError`. -/
theorem batch_and_shuffle_equal_split
    (σ : List (List ℚ) → List (List ℚ)) (x : List (List ℚ)) (y : List ℚ)
    (hσ : ∀ d, (σ d).Perm d) (hlen : x.length = y.length)
    (hz : x.length / BATCH_SIZE ≠ 0) :
    ((x.length / BATCH_SIZE) ∣ x.length →
      ∃ fb lb, Batch_and_Shuffle σ x y = .ok (fb, lb, x.length / BATCH_SIZE) ∧
        fb.length = x.length / BATCH_SIZE ∧
        (∀ b ∈ fb, b.length = x.length / (x.length / BATCH_SIZE)) ∧
        (BATCH_SIZE ∣ x.length → x.length / (x.length / BATCH_SIZE) = BATCH_SIZE)) ∧
    (¬ (x.length / BATCH_SIZE) ∣ x.length →
      Batch_and_Shuffle σ x y = .error .valueError) := by
  have hx0 : x.length ≠ 0 := fun h0 => hz (by simp [h0])
  constructor
  · intro hdvd
    refine ⟨_, _, Batch_and_Shuffle_ok σ x y hσ hlen hz hdvd,
      chunkExact_length _ _ _, ?_, fun hb => Nat.div_div_self hb hx0⟩
    intro b hb
    refine length_of_mem_chunkExact _ _ _ ?_ b hb
    have hlenF : ((σ (stacked x y)).map (fun r : List ℚ => r.take N_QUBITS)).length
        = x.length := by
      simp [((hσ _).length_eq).trans (stacked_length x y hlen)]
    rw [hlenF]
    exact (Nat.div_mul_cancel hdvd).symm
  · exact Batch_and_Shuffle_not_dvd σ x y hσ hlen hz

/-- Witness for the amended C2 at a concrete dataset of 500 aligned rows:
`z = 2` divides 500, so the call returns 2 batches of 250 rows each. -/
theorem batch_and_shuffle_equal_split_witness :
    ∃ fb lb,
      Batch_and_Shuffle (fun d => d) (ex_x 500) (ex_y 500) =
        .ok (fb, lb, (ex_x 500).length / BATCH_SIZE) ∧
      fb.length = (ex_x 500).length / BATCH_SIZE ∧
      (∀ b ∈ fb, b.length = (ex_x 500).length / ((ex_x 500).length / BATCH_SIZE)) ∧
      (BATCH_SIZE ∣ (ex_x 500).length →
        (ex_x 500).length / ((ex_x 500).length / BATCH_SIZE) = BATCH_SIZE) :=
  (batch_and_shuffle_equal_split (fun d => d) (ex_x 500) (ex_y 500)
    (fun d => List.Perm.refl d) (by decide) (by decide)).1 (by decide)

/-- C3: when `BATCH_SIZE` exceeds the dataset size (here 100 rows < 200),
`Batch_and_Shuffle` does not produce zero batches as an explicit
warning/no-op: `z = 0` and `np.split(data, 0)` evaluates `N % 0`, raising
`ZeroDivisionError`. -/
theorem batch_and_shuffle_zero_division :
    Batch_and_Shuffle (fun d => d) (ex_x 100) (ex_y 100) = .error .zeroDivisionError := rfl

/-- C4: the periodic progress line of `Train_Model` (line 110) indexes
`loss_data` with the name `sgtep`, which is bound neither in the function
body nor at module scope nor as a builtin, so evaluating the line raises
`NameError` instead of printing the last completed step's metrics; moreover
a `Train_Model` run emits no progress line at all (on a concrete 200-row
dataset the run already dies at the first step, before epoch 100). -/
theorem report_line_sgtep_name_error :
    train_model_name_lookup ("sgtep") = .error .nameError ∧
    (Train_Model (fun _ _ => 1) (fun w _ _ => w) (fun q => q) (fun _ d => d)
        (ex_x 200) (ex_y 200)).1.reports = [] :=
  ⟨rfl, rfl⟩

/-- C5 counterexample: in `test.py`'s `QuantumModel` training loop with
`E = 2` epochs and `C = 2` chunks per epoch, the step values passed to
`opt_update` are `[0, 0, 1, 1]` — the epoch index repeated per chunk, not a
counter increasing by one per call — and `2` per-epoch averaged metric
records are produced, not `E * C = 4` per-step records. -/
theorem quantum_model_stepid_cex :
    (TestPy.QuantumModel_training (fun _ _ => 1) (fun w _ _ => w) (fun q => q) (1 / 1000)
        [([[0]], [1]), ([[0]], [1])] 2 [0]).2.1 = [0, 0, 1, 1] ∧
    [0, 0, 1, 1] ≠ List.range (2 * 2) ∧
    (TestPy.QuantumModel_training (fun _ _ => 1) (fun w _ _ => w) (fun q => q) (1 / 1000)
        [([[0]], [1]), ([[0]], [1])] 2 [0]).2.2.length = 2 ∧
    (2 : Nat) ≠ 2 * 2 :=
  ⟨rfl, by decide, rfl, by decide⟩

/-- C5 amended: across `E` epochs with `C` batches per epoch, `test.py`'s
`QuantumModel` training loop passes the epoch index to every `opt_update`
call — the step sequence is each of `0 .. E-1` repeated `C` times, never
reset but not incremented per call — and produces exactly `E` per-epoch
averaged metric records (`my_model_mps.py`'s `Train_Model`, whose `step`
counter would increase by one per completed call, never completes a call;
see the C1 theorem). -/
theorem quantum_model_stepids_and_records
    (C : List ℚ → List ℚ → ℚ) (gradLoss : List ℚ → List (List ℚ) → List ℚ → List ℚ)
    (sq : ℚ → ℚ) (lr : ℚ) (batches : List (List (List ℚ) × List ℚ))
    (nE : Nat) (w0 : List ℚ) :
    (TestPy.QuantumModel_training C gradLoss sq lr batches nE w0).2.1 =
      (List.range nE).flatMap (fun i => List.replicate batches.length i) ∧
    (TestPy.QuantumModel_training C gradLoss sq lr batches nE w0).2.2.length = nE := by
  unfold TestPy.QuantumModel_training
  exact ⟨TestPy.train_loop_stepids C gradLoss sq lr batches (List.range nE) (opt_init w0),
    (TestPy.train_loop_records_length C gradLoss sq lr batches (List.range nE)
      (opt_init w0)).trans (List.length_range nE)⟩

/-- C6: one `Train_Step` returns the loss and the accuracy both evaluated at
`current_w = get_params(opt_state)` — the parameters extracted from the
optimizer state before the update — and advances the state with the
gradient evaluated at that same snapshot. -/
theorem train_step_single_snapshot
    (C : List ℚ → List ℚ → ℚ) (gradLoss : List ℚ → List (List ℚ) → List ℚ → List ℚ)
    (sq : ℚ → ℚ) (stepid : Nat) (s : OptState)
    (f : List (List ℚ)) (t : List ℚ) :
    Train_Step C gradLoss sq stepid s f t =
      (Loss C (get_params s) f t, Accuracy C (get_params s) f t,
       opt_update sq LR stepid (gradLoss (get_params s) f t) s) := rfl

/-- C7 counterexample: on 300 aligned rows the single produced batch holds
all 300 samples, so the total sample count across batches is `300`, not
`BATCH_SIZE * ⌊300 / BATCH_SIZE⌋ = 200`. -/
theorem batch_total_count_cex :
    (Batch_and_Shuffle (fun d => d) (ex_x 300) (ex_y 300)).map
        (fun r => (r.1.map List.length).sum) = .ok 300 ∧
    BATCH_SIZE * ((ex_x 300).length / BATCH_SIZE) = 200 ∧
    (300 : Nat) ≠ 200 :=
  ⟨rfl, by decide, by decide⟩

/-- C7 amended: whenever a `Batch_and_Shuffle` call succeeds (with any
permutation as the shuffle), the flattened feature/label batches are the
input rows under ONE shared permutation — each output feature row still
carries its original label, and every input row appears in exactly one
batch — and the total sample count across the batches equals `N` (all rows
are kept; it equals `BATCH_SIZE * ⌊N / BATCH_SIZE⌋` only when `BATCH_SIZE`
divides `N`). -/
theorem batch_and_shuffle_alignment
    (σ : List (List ℚ) → List (List ℚ)) (x : List (List ℚ)) (y : List ℚ)
    (fb : List (List (List ℚ))) (lb : List (List ℚ)) (z : Nat)
    (hσ : ∀ d, (σ d).Perm d)
    (hlen : x.length = y.length)
    (hw : ∀ r ∈ x, r.length = N_QUBITS)
    (hok : Batch_and_Shuffle σ x y = .ok (fb, lb, z)) :
    (fb.flatten.zip lb.flatten).Perm (x.zip y) ∧
    (fb.map List.length).sum = x.length := by
  by_cases hz : x.length / BATCH_SIZE = 0
  · exfalso
    simp [Batch_and_Shuffle, column_stack, if_pos hlen, np_split, hz] at hok
  by_cases hdvd : (x.length / BATCH_SIZE) ∣ x.length
  case neg =>
    rw [Batch_and_Shuffle_not_dvd σ x y hσ hlen hz hdvd] at hok
    exact absurd hok (by simp)
  rw [Batch_and_Shuffle_ok σ x y hσ hlen hz hdvd] at hok
  simp only [Except.ok.injEq, Prod.mk.injEq] at hok
  obtain ⟨hfb, hlb, _⟩ := hok
  have hdata : (σ (stacked x y)).length = x.length :=
    ((hσ _).length_eq).trans (stacked_length x y hlen)
  have hF : ((σ (stacked x y)).map (fun r : List ℚ => r.take N_QUBITS)).length = x.length := by
    simp [hdata]
  have hL : ((σ (stacked x y)).map (fun r : List ℚ => r.getLastD 0)).length = x.length := by
    simp [hdata]
  have hkz : x.length = x.length / (x.length / BATCH_SIZE) * (x.length / BATCH_SIZE) :=
    (Nat.div_mul_cancel hdvd).symm
  have hflatF : fb.flatten = (σ (stacked x y)).map (fun r : List ℚ => r.take N_QUBITS) := by
    rw [← hfb]
    exact chunkExact_flatten _ _ _ (hF.trans hkz)
  have hflatL : lb.flatten = (σ (stacked x y)).map (fun r : List ℚ => r.getLastD 0) := by
    rw [← hlb]
    exact chunkExact_flatten _ _ _ (hL.trans hkz)
  constructor
  · rw [hflatF, hflatL, List.zip_map']
    have hmap := List.Perm.map (fun r : List ℚ => (r.take N_QUBITS, r.getLastD 0))
      (hσ (stacked x y))
    rw [stacked_recover x y hlen hw] at hmap
    exact hmap
  · rw [← List.length_flatten, hflatF, hF]

/-- Witness for the amended C7 at a concrete dataset of 400 aligned rows
(identity shuffle, two batches of 200). -/
theorem batch_and_shuffle_alignment_witness :
    (((chunkExact 200 2 ((stacked (ex_x 400) (ex_y 400)).map
          (fun r => r.take N_QUBITS))).flatten.zip
      (chunkExact 200 2 ((stacked (ex_x 400) (ex_y 400)).map
          (fun r => r.getLastD 0))).flatten).Perm
      ((ex_x 400).zip (ex_y 400))) ∧
    ((chunkExact 200 2 ((stacked (ex_x 400) (ex_y 400)).map
        (fun r => r.take N_QUBITS))).map List.length).sum = (ex_x 400).length :=
  batch_and_shuffle_alignment (fun d => d) (ex_x 400) (ex_y 400) _ _ 2
    (fun d => List.Perm.refl d) (by decide)
    (fun r hr => by rw [List.eq_of_mem_replicate hr]; exact List.length_replicate _ _)
    rfl

/-- C8: `Accuracy` lies in `[0, 1]` and equals the fraction of samples whose
prediction sign matches the label; `Loss` is the mean squared error; and for
a predictor that outputs `+1` on every row with all labels `+1`, `Loss = 0`
and `Accuracy = 1` for any parameter values. -/
theorem metrics_accuracy_loss
    (C : List ℚ → List ℚ → ℚ) (w : List ℚ) (x : List (List ℚ)) (y : List ℚ)
    (hlen : x.length = y.length) (hne : x ≠ []) :
    0 ≤ Accuracy C w x y ∧ Accuracy C w x y ≤ 1 ∧
    Accuracy C w x y =
      ((x.zip y).countP (fun p => decide (sign (C p.1 w) = p.2)) : ℚ) / (x.length : ℚ) ∧
    ((∀ xi, C xi w = 1) → (∀ yi ∈ y, yi = 1) →
      Loss C w x y = 0 ∧ Accuracy C w x y = 1) := by
  have hxpos : 0 < x.length := List.length_pos.mpr hne
  have hqpos : (0 : ℚ) < (x.length : ℚ) := by exact_mod_cast hxpos
  have hzl : (List.zipWith (fun xi yi => if sign (C xi w) = yi then (1 : ℚ) else 0) x y).length
      = x.length := by
    rw [List.length_zipWith, hlen]
    exact min_self _
  have hacc : Accuracy C w x y =
      ((x.zip y).countP (fun p => decide (sign (C p.1 w) = p.2)) : ℚ) / (x.length : ℚ) := by
    unfold Accuracy pyMean
    rw [zipWith_indicator_sum (fun a b => sign (C a w) = b), hzl]
  refine ⟨?_, ?_, hacc, ?_⟩
  · rw [hacc]
    positivity
  · rw [hacc]
    apply div_le_one_of_le₀
    · have hzz : (x.zip y).length = x.length := by
        rw [List.length_zip, hlen]
        exact min_self _
      have hc : ((x.zip y).countP (fun p => decide (sign (C p.1 w) = p.2))) ≤ x.length :=
        le_trans (List.countP_le_length _) (le_of_eq hzz)
      exact_mod_cast hc
    · positivity
  · intro hC hy
    constructor
    · unfold Loss pyMean
      rw [zipWith_congr_mem _ (fun _ _ => (0 : ℚ)) x y
        (fun a _ b hb => by rw [hC a, hy b hb]; ring)]
      rw [zipWith_const_sum]
      simp
    · unfold Accuracy pyMean
      rw [zipWith_congr_mem _ (fun _ _ => (1 : ℚ)) x y
        (fun a _ b hb => by rw [hC a, hy b hb]; norm_num [sign])]
      have hlenzip : (List.zipWith (fun (_ : List ℚ) (_ : ℚ) => (1 : ℚ)) x y).length
          = x.length := by
        rw [List.length_zipWith, hlen]
        exact min_self _
      have hminxy : min x.length y.length = x.length := by
        rw [hlen]
        exact min_self _
      rw [zipWith_const_sum, hlenzip, hminxy, mul_one]
      exact div_self (ne_of_gt hqpos)

/-- Witness for C8 at a concrete input: a predictor constantly `+1`, one
sample with feature row `[2]` and label `+1`. -/
theorem metrics_accuracy_loss_witness :
    0 ≤ Accuracy constOne [] [[2]] [1] ∧
    Accuracy constOne [] [[2]] [1] ≤ 1 ∧
    Accuracy constOne [] [[2]] [1] =
      ((([[2]] : List (List ℚ)).zip ([1] : List ℚ)).countP
        (fun p => decide (sign (constOne p.1 []) = p.2)) : ℚ) /
        (([[2]] : List (List ℚ)).length : ℚ) ∧
    ((∀ xi, constOne xi [] = 1) →
      (∀ yi ∈ ([1] : List ℚ), yi = 1) →
      Loss constOne [] [[2]] [1] = 0 ∧ Accuracy constOne [] [[2]] [1] = 1) :=
  metrics_accuracy_loss constOne [] [[2]] [1] rfl (by decide)

/-- C9: the optimizer step is a pure function of its inputs, so two
independent runs of `N` training steps from identical initial parameters
over an identical batch sequence (with the same external primitives and the
source's fixed learning rate) produce identical optimizer states and
bit-for-bit identical final parameters. -/
theorem optimizer_determinism
    (C : List ℚ → List ℚ → ℚ) (gradLoss : List ℚ → List (List ℚ) → List ℚ → List ℚ)
    (sq : ℚ → ℚ) (w0 w0' : List ℚ)
    (bs bs' : List (List (List ℚ) × List ℚ))
    (hw : w0 = w0') (hb : bs = bs') :
    trainRun C gradLoss sq w0 bs = trainRun C gradLoss sq w0' bs' ∧
    get_params (trainRun C gradLoss sq w0 bs) = get_params (trainRun C gradLoss sq w0' bs') := by
  subst hw
  subst hb
  exact ⟨rfl, rfl⟩

/-- Witness for C9: two one-step runs from the same initial parameters and
batch sequence. -/
theorem optimizer_determinism_witness :
    trainRun (fun _ _ => 1) (fun w _ _ => w) (fun q => q) [1] [([[1]], [1])] =
      trainRun (fun _ _ => 1) (fun w _ _ => w) (fun q => q) [1] [([[1]], [1])] ∧
    get_params (trainRun (fun _ _ => 1) (fun w _ _ => w) (fun q => q) [1] [([[1]], [1])]) =
      get_params (trainRun (fun _ _ => 1) (fun w _ _ => w) (fun q => q) [1] [([[1]], [1])]) :=
  optimizer_determinism _ _ _ _ _ _ _ rfl rfl

/-- C10: `Plot_ROC` never reaches the ROC computation: `ps =
np.array(TEST_SIZE)` builds a 0-dimensional scalar array, so the first
assignment `ps[i] = Circuit(new_x[i], w)` raises `IndexError` (here on a
200-row test set, `depth = 1`); no per-sample score, ROC curve or AUC is
ever produced. -/
theorem plot_roc_index_error :
    Plot_ROC (fun _ _ => 1) (fun _ _ => ([], [], [])) (fun _ _ => 0) []
      (ex_x 200) (ex_y 200) = .error .indexError := rfl

end QML
